import Mathlib

/- Verification of the query_patient natural-language-to-SQL assistant:
   a shallow embedding of streamlit_app.py and utils.py.  Strings are
   modelled as Lean Strings (lists of characters); the external
   collaborators (the Gemini client, the PostgreSQL connection, bcrypt,
   os.getenv) are parameters of the embedded functions. -/

instance {ε α : Type} [DecidableEq ε] [DecidableEq α] : DecidableEq (Except ε α) :=
  fun x y =>
    match x, y with
    | .ok a, .ok b =>
      if h : a = b then isTrue (by rw [h]) else isFalse (by simp [h])
    | .error a, .error b =>
      if h : a = b then isTrue (by rw [h]) else isFalse (by simp [h])
    | .ok _, .error _ => isFalse (by simp)
    | .error _, .ok _ => isFalse (by simp)

/-- Python whitespace, the character class matched by str.strip and by
the regex class \s (ASCII range). -/
def isPyWs (c : Char) : Bool :=
  c = ' ' || c = '\t' || c = '\n' || c = '\r' || c = '\x0b' || c = '\x0c'

/-- Drop trailing whitespace characters (the right half of Python
str.strip). -/
def rstripWs : List Char → List Char
  | [] => []
  | c :: rest =>
    match rstripWs rest with
    | [] => if isPyWs c then [] else [c]
    | r => c :: r

/-- Python str.strip on a character list: drop leading and trailing
whitespace. -/
def pyStrip (s : List Char) : List Char :=
  rstripWs (s.dropWhile isPyWs)

/-- Python str.strip at the String level. -/
def pyStripStr (s : String) : String :=
  ⟨pyStrip s.data⟩

/-- Tests whether a character list begins with three backticks. -/
def startsTicks : List Char → Bool
  | c1 :: c2 :: c3 :: _ => c1 = '\x60' && c2 = '\x60' && c3 = '\x60'
  | _ => false

/-- Tests whether three consecutive backticks occur anywhere in the
list.  The spec calls such an occurrence a fence marker. -/
def hasTicks : List Char → Bool
  | [] => false
  | c :: rest => startsTicks (c :: rest) || hasTicks rest

/-- Case-insensitive test for the letters s q l at the head of the
list, the tag of the opening fence alternative (re.IGNORECASE). -/
def isSqlTag : List Char → Bool
  | c1 :: c2 :: c3 :: _ =>
    (c1 = 's' || c1 = 'S') && (c2 = 'q' || c2 = 'Q') && (c3 = 'l' || c3 = 'L')
  | _ => false

/-- Match of the first regex alternative at the current position: three
backticks then the tag sql, case-insensitively.  The multiline start
anchor and the trailing greedy whitespace are handled by the scanner. -/
def matchesOpen (s : List Char) : Bool :=
  startsTicks s && isSqlTag (s.drop 3)

/-- The multiline end-of-line anchor of Python regexes: end of the text
or a newline next. -/
def lineEnd : List Char → Bool
  | [] => true
  | c :: _ => c = '\n'

/-- Match of the second regex alternative at the current position:
greedy whitespace, three backticks, end of line.  A backtick is not
whitespace, so the greedy whitespace run is forced to stop exactly where
the backticks start and no backtracking arises. -/
def matchesClose (s : List Char) : Bool :=
  startsTicks (s.dropWhile isPyWs) && lineEnd ((s.dropWhile isPyWs).drop 3)

/-- Whether a consumed whitespace run ends with a newline; decides the
multiline start anchor for the position after the first alternative. -/
def endsNl (l : List Char) : Bool :=
  l.getLast? = some '\n'

/-- One pass of Python re.sub with the fence pattern of
extract_sql_from_response (the two alternatives caret-backticks-sql
followed by greedy whitespace, and greedy whitespace followed by
backticks at a line end; flags IGNORECASE and MULTILINE) and empty
replacement.  The scanner walks the text left to right trying the first
alternative, then the second, at each position, exactly as re.sub does;
atStart records whether the position is the start of the text or
preceded by a newline; fuel bounds the number of steps and is always
called with the text length, which suffices because every step consumes
at least one character. -/
def fence_sub : Nat → Bool → List Char → List Char
  | 0, _, s => s
  | _ + 1, _, [] => []
  | fuel + 1, atStart, c :: rest =>
    if atStart && matchesOpen (c :: rest) then
      fence_sub fuel (endsNl (((c :: rest).drop 6).takeWhile isPyWs))
        (((c :: rest).drop 6).dropWhile isPyWs)
    else if matchesClose (c :: rest) then
      fence_sub fuel false (((c :: rest).dropWhile isPyWs).drop 3)
    else
      c :: fence_sub fuel (c = '\n') rest

/-- The function extract_sql_from_response of streamlit_app.py: re.sub
of the fence pattern with empty replacement, then str.strip. -/
def extract_sql_from_response (response_text : String) : String :=
  ⟨pyStrip (fence_sub response_text.data.length true response_text.data)⟩

/-- The constant DATABASE_SCHEMA of streamlit_app.py, verbatim. -/
def DATABASE_SCHEMA : String :=
  "\nDatabase Schema:\n\nLOOKUP TABLES:\n- ProductCategory(ProductCategoryID, ProductCategory, ProductCategoryDescription)\n\nCORE TABLES:\n- Region(RegionID, Region)\n- Country(CountryID, Country, RegionID)\n- Customer(CustomerID, FirstName, LastName, Address, City, CountryID)\n- Product(ProductID, ProductName, ProductUnitPrice, ProductCategoryID)\n- OrderDetail(OrderID, CustomerID, ProductID, OrderDate, QuantityOrdered)\n\nIMPORTANT NOTES:\n- Use JOINs to get descriptive values (e.g., join Product to ProductCategory)\n- OrderDate is DATE type\n- QuantityOrdered is INTEGER\n- For aggregates, use SUM, AVG, COUNT as needed\n- Add LIMIT clauses for queries returning many rows\n"

/-- The instruction text of the prompt f-string before the schema. -/
def promptIntro : String :=
  "You are a PostgreSQL expert. Given the following database schema and a user\x27s question, generate a valid PostgreSQL query.\n\n"

/-- The instruction text of the prompt f-string between the schema and
the question. -/
def promptMid : String :=
  "\n\nUser Question: "

/-- The enumerated rule set of the prompt f-string after the question. -/
def promptTail : String :=
  "\n\nRequirements:\n1. Generate ONLY the SQL query.\n2. Use proper JOINs to get descriptive names.\n3. Use SUM, AVG, COUNT when appropriate.\n4. Use LIMIT 100 for queries returning many rows.\n5. Format date columns correctly.\n6. Add helpful column aliases using AS.\n\nGenerate the SQL query:"

/-- The prompt f-string of generate_sql_with_gpt (lines 118-132 of
streamlit_app.py): the role instruction, the schema verbatim, the user
question verbatim, and the fixed rule set. -/
def build_prompt (user_question : String) : String :=
  promptIntro ++ DATABASE_SCHEMA ++ promptMid ++ user_question ++ promptTail

/-- The function generate_sql_with_gpt of streamlit_app.py.  The Gemini
client is a parameter: llm n prompt is the outcome that attempt number n
on the given prompt would have, an Except.error being a raised
exception.  The code makes exactly one call, attempt 0, inside its
try block.  The first component of the result lists the st.error
messages displayed; the second is the Python return value, none standing
for None. -/
def generate_sql_with_gpt (llm : Nat → String → Except String String)
    (user_question : String) : List String × Option String :=
  match llm 0 (build_prompt user_question) with
  | .ok text => ([], some (extract_sql_from_response text))
  | .error e => (["Error calling Gemini API: " ++ e], none)

/-- One query_history entry, the dict appended by main: question, sql
and the row count of the result. -/
structure Entry where
  question : String
  sql : String
  rows : Nat
deriving DecidableEq

/-- The st.session_state fields used by streamlit_app.py. -/
structure SessionState where
  logged_in : Bool
  generated_sql : Option String
  current_question : Option String
  query_history : List Entry
deriving DecidableEq

/-- The function run_query of streamlit_app.py.  The cached database
connection is a parameter: none models a failed get_db_connection, and
a live connection maps SQL text to a result table (a list of rows) or a
raised exception message.  run_query returns none when the connection is
missing or the read raises, mirroring the None returns of the source. -/
def run_query (conn : Option (String → Except String (List (List String))))
    (sql : String) : Option (List (List String)) :=
  match conn with
  | none => none
  | some db =>
    match db sql with
    | .ok df => some df
    | .error _ => none

/-- The Run Query branch of main (lines 238-248 of streamlit_app.py):
execute the edited SQL; on success append an entry recording the current
text area content user_question, the executed SQL and the row count; on
failure leave the session state unchanged. -/
def runQueryAction (conn : Option (String → Except String (List (List String))))
    (s : SessionState) (user_question edited_sql : String) : SessionState :=
  match run_query conn edited_sql with
  | some df =>
    { s with query_history := s.query_history ++ [⟨user_question, edited_sql, df.length⟩] }
  | none => s

/-- Lines 214-216 of main: when the stripped submitted question differs
from the recorded current_question, clear the stale generated_sql and
current_question. -/
def clearIfNewQuestion (s : SessionState) (q : String) : SessionState :=
  if s.current_question = some q then s
  else { s with generated_sql := none, current_question := none }

/-- Lines 219-222 of main: store a newly generated query.  Python tests
the generation result for truthiness, so both None and the empty string
leave the state unchanged. -/
def storeGenerated (s : SessionState) (q : String) (result : Option String) : SessionState :=
  match result with
  | some sql =>
    if sql = "" then s
    else { s with generated_sql := some sql, current_question := some q }
  | none => s

/-- The Generate SQL branch of main (lines 212-222 of streamlit_app.py).
raw is the text area content; the branch runs only when it is non-empty
(Python truthiness); the submission is stripped, stale state for a
changed question is cleared, then generation runs and its result is
stored.  llm gives the Option String outcome of generate_sql_with_gpt. -/
def generateAction (llm : String → Option String) (s : SessionState)
    (raw : String) : SessionState :=
  if raw = "" then s
  else
    storeGenerated (clearIfNewQuestion s (pyStripStr raw)) (pyStripStr raw)
      (llm (pyStripStr raw))

/-- The login branch of login_screen (lines 53-63 of streamlit_app.py).
checkpw models bcrypt.checkpw of the entered password against the stored
hash: ok true and ok false are its two normal outcomes and error a
raised exception.  An empty password is turned away before the check
(Python truthiness of the password string); a passing check sets
logged_in; every other outcome shows a message and leaves the state
unchanged. -/
def login_screen (checkpw : String → Except String Bool) (s : SessionState)
    (password : String) : SessionState :=
  if password = "" then s
  else
    match checkpw password with
    | .ok true => { s with logged_in := true }
    | .ok false => s
    | .error _ => s

/-- Lines 256-257 of main: the history display iterates over
reversed(query_history[-5:]), the last five entries most recent first. -/
def displayHistory (h : List Entry) : List Entry :=
  (h.drop (h.length - 5)).reverse

/-- The function get_db_url of utils.py.  env models os.getenv; a raise
is an Except.error.  The port defaults to "5432" when POSTGRES_PORT is
unset; a missing username, password, server or database name raises. -/
def get_db_url (env : String → Option String) : Except String String :=
  match env "POSTGRES_USERNAME", env "POSTGRES_PASSWORD",
      env "POSTGRES_SERVER", env "POSTGRES_DATABASE" with
  | some u, some p, some h, some d =>
    .ok ("postgresql://" ++ u ++ ":" ++ p ++ "@" ++ h ++ ":" ++
      ((env "POSTGRES_PORT").getD "5432") ++ "/" ++ d)
  | _, _, _, _ => .error "Missing environment variables!"

/-- A fully populated test environment for the configuration reader,
with no port configured. -/
def envFull : String → Option String := fun k =>
  if k = "POSTGRES_USERNAME" then some "user1"
  else if k = "POSTGRES_PASSWORD" then some "pw"
  else if k = "POSTGRES_SERVER" then some "dbhost"
  else if k = "POSTGRES_DATABASE" then some "patients"
  else none

/-- An empty test environment. -/
def envEmpty : String → Option String := fun _ => none

/-- The three-backtick marker as a character list. -/
def ticks : List Char := ['\x60', '\x60', '\x60']

/-- A list beginning with three backticks contains three consecutive
backticks. -/
theorem startsTicks_hasTicks {s : List Char} (h : startsTicks s = true) :
    hasTicks s = true := by
  cases s with
  | nil => simp [startsTicks] at h
  | cons c rest => simp [hasTicks, h]

/-- Appending on the right preserves a leading three-backtick marker. -/
theorem startsTicks_append {l1 : List Char} (l2 : List Char)
    (h : startsTicks l1 = true) : startsTicks (l1 ++ l2) = true := by
  match l1 with
  | [] => simp [startsTicks] at h
  | [a] => simp [startsTicks] at h
  | [a, b] => simp [startsTicks] at h
  | a :: b :: c :: rest => simpa [startsTicks] using h

/-- A fence marker in the left part survives appending on the right. -/
theorem hasTicks_append_left {l1 : List Char} (l2 : List Char)
    (h : hasTicks l1 = true) : hasTicks (l1 ++ l2) = true := by
  induction l1 with
  | nil => simp [hasTicks] at h
  | cons c rest ih =>
    simp only [hasTicks, Bool.or_eq_true] at h
    rcases h with h | h
    · have hs := startsTicks_append l2 h
      simp only [List.cons_append] at hs
      simp [hasTicks, hs]
    · simp [hasTicks, ih h]

/-- A fence marker in the right part survives prepending on the left. -/
theorem hasTicks_append_right (l1 : List Char) {l2 : List Char}
    (h : hasTicks l2 = true) : hasTicks (l1 ++ l2) = true := by
  induction l1 with
  | nil => simpa using h
  | cons c rest ih => simp [hasTicks, ih]

/-- dropWhile cannot create a fence marker. -/
theorem hasTicks_dropWhile {p : Char → Bool} {l : List Char}
    (h : hasTicks (l.dropWhile p) = true) : hasTicks l = true := by
  induction l with
  | nil => simpa using h
  | cons c rest ih =>
    rw [List.dropWhile_cons] at h
    by_cases hc : p c = true
    · simp only [hc, if_true] at h
      simp [hasTicks, ih h]
    · simp only [hc] at h
      simpa using h

/-- rstripWs of an all-whitespace list is empty. -/
theorem rstripWs_of_all {l : List Char} (h : l.all isPyWs = true) :
    rstripWs l = [] := by
  induction l with
  | nil => rfl
  | cons c rest ih =>
    simp only [List.all_cons, Bool.and_eq_true] at h
    rw [rstripWs, ih h.2]
    simp [h.1]

/-- rstripWs is empty only on all-whitespace lists. -/
theorem all_of_rstripWs_eq_nil {l : List Char} (h : rstripWs l = []) :
    l.all isPyWs = true := by
  induction l with
  | nil => rfl
  | cons c rest ih =>
    rw [rstripWs] at h
    rcases hr : rstripWs rest with _ | _
    · rw [hr] at h
      by_cases hc : isPyWs c = true
      · simp [List.all_cons, hc, ih hr]
      · simp [hc] at h
    · rw [hr] at h
      simp at h

/-- rstripWs on a list that is not all whitespace keeps the head. -/
theorem rstripWs_cons_of_not_all {c : Char} {l : List Char}
    (h : (c :: l).all isPyWs = false) :
    rstripWs (c :: l) = c :: rstripWs l := by
  rw [rstripWs]
  rcases hr : rstripWs l with _ | _
  · have hall := all_of_rstripWs_eq_nil hr
    simp only [List.all_cons, hall, Bool.and_true] at h
    simp [h]
  · rfl

/-- The list is rstripWs of itself followed by a (whitespace) tail. -/
theorem rstripWs_decomp (l : List Char) : ∃ t, l = rstripWs l ++ t := by
  induction l with
  | nil => exact ⟨[], rfl⟩
  | cons c rest ih =>
    rcases ih with ⟨t, ht⟩
    rw [rstripWs]
    rcases hr : rstripWs rest with _ | ⟨d, r⟩
    · by_cases hc : isPyWs c = true
      · rw [hr] at ht
        exact ⟨c :: rest, by simp [hc]⟩
      · rw [hr] at ht
        exact ⟨rest, by simp [hc, ht]⟩
    · rw [hr] at ht
      exact ⟨t, by simpa using ht⟩

/-- rstripWs cannot create a fence marker. -/
theorem hasTicks_rstripWs {l : List Char} (h : hasTicks (rstripWs l) = true) :
    hasTicks l = true := by
  rcases rstripWs_decomp l with ⟨t, ht⟩
  rw [ht]
  exact hasTicks_append_left t h

/-- pyStrip cannot create a fence marker. -/
theorem hasTicks_pyStrip {l : List Char} (h : hasTicks (pyStrip l) = true) :
    hasTicks l = true :=
  hasTicks_dropWhile (hasTicks_rstripWs h)

/-- rstripWs is idempotent. -/
theorem rstripWs_idem (l : List Char) : rstripWs (rstripWs l) = rstripWs l := by
  induction l with
  | nil => rfl
  | cons c rest ih =>
    rcases hr : rstripWs rest with _ | ⟨d, r⟩
    · by_cases hc : isPyWs c = true
      · have hcr : rstripWs (c :: rest) = [] := by
          rw [rstripWs, hr]
          simp [hc]
        rw [hcr]
        rfl
      · have hcr : rstripWs (c :: rest) = [c] := by
          rw [rstripWs, hr]
          simp [hc]
        rw [hcr]
        simp [rstripWs, hc]
    · rw [hr] at ih
      have hcr : rstripWs (c :: rest) = c :: d :: r := by
        rw [rstripWs, hr]
      rw [hcr, rstripWs, ih]

/-- The head of a dropWhile result fails the predicate. -/
theorem dropWhile_head_false {p : Char → Bool} {l : List Char} {c : Char}
    {rest : List Char} (h : l.dropWhile p = c :: rest) : p c = false := by
  induction l with
  | nil => simp at h
  | cons a as ih =>
    rw [List.dropWhile_cons] at h
    by_cases ha : p a = true
    · simp only [ha, if_true] at h
      exact ih h
    · simp only [ha] at h
      simp only [Bool.not_eq_true] at ha
      rcases h with ⟨rfl, rfl⟩
      exact ha

/-- rstripWs keeps a non-whitespace head in place, so stripping from
the left afterwards does nothing. -/
theorem dropWhile_rstripWs_of_head {c : Char} (rest : List Char)
    (hc : isPyWs c = false) :
    (rstripWs (c :: rest)).dropWhile isPyWs = rstripWs (c :: rest) := by
  rw [rstripWs]
  rcases hr : rstripWs rest with _ | ⟨d, r⟩
  · simp [hc, List.dropWhile_cons]
  · simp [hc, List.dropWhile_cons]

/-- Python str.strip is idempotent. -/
theorem pyStrip_idem (l : List Char) : pyStrip (pyStrip l) = pyStrip l := by
  unfold pyStrip
  rcases hd : l.dropWhile isPyWs with _ | ⟨c, rest⟩
  · rfl
  · have hc : isPyWs c = false := dropWhile_head_false hd
    rw [dropWhile_rstripWs_of_head rest hc, rstripWs_idem]

/-- A backtick is not Python whitespace. -/
theorem isPyWs_tick : isPyWs '\x60' = false := by decide

/-- Dropping leading whitespace from a text followed by the closing
marker stops no later than the marker. -/
theorem dropWhile_append_ticks (x : List Char) :
    (x ++ ticks).dropWhile isPyWs = x.dropWhile isPyWs ++ ticks := by
  induction x with
  | nil => simp [ticks, List.dropWhile_cons, isPyWs_tick]
  | cons c rest ih =>
    by_cases hc : isPyWs c = true
    · simp [List.cons_append, List.dropWhile_cons, hc, ih]
    · simp [List.cons_append, List.dropWhile_cons, hc]

/-- A list whose dropWhile result is non-empty is not all-satisfying. -/
theorem all_eq_false_of_dropWhile_cons {p : Char → Bool} {x : List Char}
    {c : Char} {r : List Char} (h : x.dropWhile p = c :: r) :
    x.all p = false := by
  cases hx : x.all p
  · rfl
  · have h0 : x.dropWhile p = [] := by
      rw [List.dropWhile_eq_nil_iff]
      intro a ha
      exact List.all_eq_true.mp hx a ha
    rw [h0] at h
    exact absurd h (by simp)

/-- With no fence marker in the text part, the opening alternative never
matches the text followed by the bare closing marker: the three
characters after any backtick run there are never the tag sql. -/
theorem matchesOpen_append_ticks {x : List Char} (h : hasTicks x = false) :
    matchesOpen (x ++ ticks) = false := by
  match x with
  | [] => rfl
  | [a] =>
    show (startsTicks (a :: ticks) && isSqlTag ((a :: ticks).drop 3)) = false
    have hsq : isSqlTag ((a :: ticks).drop 3) = false := rfl
    rw [hsq, Bool.and_false]
  | [a, b] =>
    show (startsTicks (a :: b :: ticks) && isSqlTag ((a :: b :: ticks).drop 3)) = false
    have hsq : isSqlTag ((a :: b :: ticks).drop 3) = false := rfl
    rw [hsq, Bool.and_false]
  | a :: b :: c :: rest =>
    have h1 : startsTicks (a :: b :: c :: rest) = false := by
      cases hst : startsTicks (a :: b :: c :: rest)
      · rfl
      · exact absurd (startsTicks_hasTicks hst) (by simp [h])
    show (startsTicks (a :: b :: c :: (rest ++ ticks))
        && isSqlTag ((a :: b :: c :: (rest ++ ticks)).drop 3)) = false
    have h2 : startsTicks (a :: b :: c :: (rest ++ ticks)) = false := by
      simp only [startsTicks] at h1 ⊢
      exact h1
    rw [h2, Bool.false_and]

/-- With no fence marker in the text part, the closing alternative
matches the text followed by the bare closing marker exactly when the
whole text part is whitespace. -/
theorem matchesClose_append_ticks {x : List Char} (h : hasTicks x = false) :
    matchesClose (x ++ ticks) = x.all isPyWs := by
  unfold matchesClose
  rw [dropWhile_append_ticks]
  rcases hu : x.dropWhile isPyWs with _ | ⟨a, _ | ⟨b, _ | ⟨c, rest⟩⟩⟩
  · have hall : x.all isPyWs = true := by
      rw [List.all_eq_true]
      intro a ha
      exact List.dropWhile_eq_nil_iff.mp hu a ha
    rw [hall]
    rfl
  · rw [all_eq_false_of_dropWhile_cons hu]
    have hl : lineEnd (([a] ++ ticks).drop 3) = false := rfl
    rw [hl, Bool.and_false]
  · rw [all_eq_false_of_dropWhile_cons hu]
    have hl : lineEnd (([a, b] ++ ticks).drop 3) = false := rfl
    rw [hl, Bool.and_false]
  · rw [all_eq_false_of_dropWhile_cons hu]
    have hs : startsTicks ((a :: b :: c :: rest) ++ ticks) = false := by
      cases hst : startsTicks (a :: b :: c :: rest)
      · simp only [List.cons_append, startsTicks] at hst ⊢
        exact hst
      · have h1 : hasTicks (x.dropWhile isPyWs) = true := by
          rw [hu]
          exact startsTicks_hasTicks hst
        exact absurd (hasTicks_dropWhile h1) (by simp [h])
    rw [hs, Bool.false_and]

/-- On a text with no fence marker the substitution is the identity:
both regex alternatives require three consecutive backticks. -/
theorem fence_sub_no_ticks : ∀ (s : List Char) (fuel : Nat) (b : Bool),
    hasTicks s = false → fence_sub fuel b s = s := by
  intro s
  induction s with
  | nil =>
    intro fuel b _
    cases fuel <;> rfl
  | cons c rest ih =>
    intro fuel b h
    cases fuel with
    | zero => rfl
    | succ f =>
      have hop : matchesOpen (c :: rest) = false := by
        unfold matchesOpen
        cases hst : startsTicks (c :: rest)
        · rw [Bool.false_and]
        · exact absurd (startsTicks_hasTicks hst) (by simp [h])
      have hcl : matchesClose (c :: rest) = false := by
        unfold matchesClose
        cases hst : startsTicks ((c :: rest).dropWhile isPyWs)
        · rw [Bool.false_and]
        · exact absurd (hasTicks_dropWhile (startsTicks_hasTicks hst)) (by simp [h])
      have hrest : hasTicks rest = false := by
        simp only [hasTicks, Bool.or_eq_false_iff] at h
        exact h.2
      rw [fence_sub, hop, hcl]
      simp only [Bool.and_false, if_false, Bool.false_eq_true]
      rw [ih f (c = '\n') hrest]

/-- The first step of the substitution on a text that begins with the
opening marker at the start anchor: the marker and the greedy whitespace
after it are consumed and scanning resumes after them, at a line start
exactly when the consumed whitespace ended with a newline. -/
theorem fence_sub_open (n : Nat) (l : List Char) :
    fence_sub (n + 1) true ('\x60' :: '\x60' :: '\x60' :: 's' :: 'q' :: 'l' :: l)
      = fence_sub n (endsNl (l.takeWhile isPyWs)) (l.dropWhile isPyWs) := rfl

/-- Scanning a fence-free text followed by the bare closing marker:
every character is copied until the trailing whitespace run, where the
closing alternative consumes the run and the marker; the result is the
text with its trailing whitespace removed. -/
theorem fence_sub_core_close : ∀ (core : List Char) (fuel : Nat) (b : Bool),
    hasTicks core = false → core.length + 1 ≤ fuel →
    fence_sub fuel b (core ++ ticks) = rstripWs core := by
  intro core
  induction core with
  | nil =>
    intro fuel b _ hf
    obtain ⟨f, rfl⟩ : ∃ f, fuel = f + 1 := ⟨fuel - 1, by omega⟩
    cases b <;> cases f <;> rfl
  | cons c core' ih =>
    intro fuel b h hf
    obtain ⟨f, rfl⟩ : ∃ f, fuel = f + 1 := ⟨fuel - 1, by omega⟩
    have hrest : hasTicks core' = false := by
      simp only [hasTicks, Bool.or_eq_false_iff] at h
      exact h.2
    have hop := matchesOpen_append_ticks h
    have hcl := matchesClose_append_ticks h
    simp only [List.cons_append] at hop hcl
    show fence_sub (f + 1) b (c :: (core' ++ ticks)) = rstripWs (c :: core')
    cases hall : (c :: core').all isPyWs with
    | true =>
      rw [hall] at hcl
      have hdw : (c :: (core' ++ ticks)).dropWhile isPyWs = ticks := by
        have hd := dropWhile_append_ticks (c :: core')
        simp only [List.cons_append] at hd
        have hnil : (c :: core').dropWhile isPyWs = [] := by
          rw [List.dropWhile_eq_nil_iff]
          intro a ha
          exact List.all_eq_true.mp hall a ha
        rw [hd, hnil]
        rfl
      rw [fence_sub, hop, hcl]
      simp only [Bool.and_false, if_false, if_true, Bool.false_eq_true]
      rw [hdw]
      rw [rstripWs_of_all hall]
      cases f <;> rfl
    | false =>
      rw [hall] at hcl
      rw [fence_sub, hop, hcl]
      simp only [Bool.and_false, if_false, Bool.false_eq_true]
      have hf' : core'.length + 1 ≤ f := by
        simp only [List.length_cons] at hf
        omega
      rw [ih f (c = '\n') hrest hf']
      rw [rstripWs_cons_of_not_all hall]

/-- Claim C1, counterexample: the response text below contains a sql
fence (opening marker, inner body, closing marker), yet extraction does
not return the inner content trimmed — the prose before the fence
survives into the output, because the code only deletes the markers in
place and never selects the fenced block. -/
theorem extract_sql_fence_contains_counterexample :
    ("Intro:\n```sql\nSELECT 1\n```" : String)
        = "Intro:\n" ++ "```sql" ++ "\nSELECT 1\n" ++ "```"
    ∧ pyStripStr "\nSELECT 1\n" = "SELECT 1"
    ∧ extract_sql_from_response "Intro:\n```sql\nSELECT 1\n```" = "Intro:\nSELECT 1"
    ∧ ("Intro:\nSELECT 1" : String) ≠ "SELECT 1" :=
  ⟨by decide, by decide, by decide, by decide⟩

/-- Claim C1 (amended): for every response text that is exactly a sql
fence — the opening marker at the very start, the closing marker at the
very end, and an inner body containing no triple backtick —
extract_sql_from_response returns the inner content with surrounding
whitespace trimmed, and the result contains no fence markers. -/
theorem extract_sql_exact_fence (inner : String)
    (h : hasTicks inner.data = false) :
    extract_sql_from_response ("```sql" ++ inner ++ "```") = pyStripStr inner
    ∧ hasTicks (extract_sql_from_response ("```sql" ++ inner ++ "```")).data
        = false := by
  obtain ⟨il⟩ := inner
  have hcore : hasTicks (il.dropWhile isPyWs) = false := by
    cases hx : hasTicks (il.dropWhile isPyWs)
    · rfl
    · exact absurd (hasTicks_dropWhile hx) (by simp [show hasTicks il = false from h])
  have key : fence_sub (("```sql" ++ String.mk il ++ "```").data).length true
      ("```sql" ++ String.mk il ++ "```").data
      = rstripWs (il.dropWhile isPyWs) := by
    show fence_sub ((il ++ ticks).length + 5 + 1) true
        ('\x60' :: '\x60' :: '\x60' :: 's' :: 'q' :: 'l' :: (il ++ ticks))
        = rstripWs (il.dropWhile isPyWs)
    rw [fence_sub_open, dropWhile_append_ticks]
    apply fence_sub_core_close _ _ _ hcore
    have hlen : (il.dropWhile isPyWs).length ≤ il.length :=
      (List.dropWhile_sublist isPyWs).length_le
    simp only [List.length_append, ticks, List.length_cons, List.length_nil]
    omega
  constructor
  · show String.mk (pyStrip (fence_sub (("```sql" ++ String.mk il ++ "```").data).length
        true ("```sql" ++ String.mk il ++ "```").data)) = pyStripStr (String.mk il)
    rw [key]
    show String.mk (pyStrip (pyStrip il)) = pyStripStr (String.mk il)
    rw [pyStrip_idem]
    rfl
  · show hasTicks (pyStrip (fence_sub (("```sql" ++ String.mk il ++ "```").data).length
        true ("```sql" ++ String.mk il ++ "```").data)) = false
    rw [key]
    show hasTicks (pyStrip (pyStrip il)) = false
    cases hx : hasTicks (pyStrip (pyStrip il))
    · rfl
    · exact absurd (hasTicks_pyStrip (hasTicks_pyStrip hx))
        (by simp [show hasTicks il = false from h])

/-- Claim C1 (amended), witness at a concrete fenced response. -/
theorem extract_sql_exact_fence_witness :
    hasTicks ("\nSELECT * FROM Customer\n" : String).data = false
    ∧ (extract_sql_from_response ("```sql" ++ "\nSELECT * FROM Customer\n" ++ "```")
          = pyStripStr "\nSELECT * FROM Customer\n"
        ∧ hasTicks (extract_sql_from_response
            ("```sql" ++ "\nSELECT * FROM Customer\n" ++ "```")).data = false) :=
  ⟨by decide, extract_sql_exact_fence "\nSELECT * FROM Customer\n" (by decide)⟩

/-- Claim C2 (amended): on a response text containing no fence markers,
extraction returns the input with surrounding whitespace trimmed and is
idempotent there (universal idempotence fails, see the
counterexample). -/
theorem extract_sql_no_fence (s : String) (h : hasTicks s.data = false) :
    extract_sql_from_response s = pyStripStr s
    ∧ extract_sql_from_response (extract_sql_from_response s)
        = extract_sql_from_response s := by
  obtain ⟨l⟩ := s
  have h1 : extract_sql_from_response (String.mk l) = pyStripStr (String.mk l) := by
    show String.mk (pyStrip (fence_sub l.length true l)) = String.mk (pyStrip l)
    rw [fence_sub_no_ticks l l.length true h]
  refine ⟨h1, ?_⟩
  rw [h1]
  have h2 : hasTicks (pyStrip l) = false := by
    cases hx : hasTicks (pyStrip l)
    · rfl
    · exact absurd (hasTicks_pyStrip hx) (by simp [show hasTicks l = false from h])
  show String.mk (pyStrip (fence_sub (pyStrip l).length true (pyStrip l)))
      = String.mk (pyStrip l)
  rw [fence_sub_no_ticks _ _ _ h2, pyStrip_idem]

/-- Claim C2 (amended), witness at a concrete fence-free response. -/
theorem extract_sql_no_fence_witness :
    hasTicks ("  SELECT 1;\n" : String).data = false
    ∧ (extract_sql_from_response "  SELECT 1;\n" = pyStripStr "  SELECT 1;\n"
        ∧ extract_sql_from_response (extract_sql_from_response "  SELECT 1;\n")
            = extract_sql_from_response "  SELECT 1;\n") :=
  ⟨by decide, extract_sql_no_fence "  SELECT 1;\n" (by decide)⟩

/-- Claim C2, counterexample to the idempotence half: on six backticks
the first pass removes only the final three (the leading three are
followed by further backticks, not a line end, and the opening
alternative needs the sql tag), leaving a bare marker that a second pass
removes, so applying extraction twice differs from applying it once. -/
theorem extract_sql_idem_counterexample :
    extract_sql_from_response "``````" = "```"
    ∧ extract_sql_from_response (extract_sql_from_response "``````") = ""
    ∧ extract_sql_from_response (extract_sql_from_response "``````")
        ≠ extract_sql_from_response "``````" :=
  ⟨by decide, by decide, by decide⟩

/-- Claim C3: for every non-empty question the built prompt contains the
full schema description and the exact question text as substrings, and
the prompt is the fixed instruction text around the question — the
surrounding text and rule set are the constants promptIntro, promptMid
and promptTail for every invocation, so two calls with the same question
build the identical prompt and only the question part varies. -/
theorem build_prompt_contains (q : String) (hq : q ≠ "") :
    (∃ u v, build_prompt q = u ++ DATABASE_SCHEMA ++ v)
    ∧ (∃ u v, build_prompt q = u ++ q ++ v)
    ∧ build_prompt q
        = promptIntro ++ DATABASE_SCHEMA ++ promptMid ++ q ++ promptTail := by
  refine ⟨⟨promptIntro, promptMid ++ q ++ promptTail, ?_⟩,
    ⟨promptIntro ++ DATABASE_SCHEMA ++ promptMid, promptTail, rfl⟩, rfl⟩
  unfold build_prompt
  simp [String.append_assoc]

/-- Claim C3, witness at a concrete question. -/
theorem build_prompt_contains_witness :
    ("How many customers per city?" : String) ≠ ""
    ∧ ((∃ u v, build_prompt "How many customers per city?"
          = u ++ DATABASE_SCHEMA ++ v)
      ∧ (∃ u v, build_prompt "How many customers per city?"
          = u ++ "How many customers per city?" ++ v)
      ∧ build_prompt "How many customers per city?"
          = promptIntro ++ DATABASE_SCHEMA ++ promptMid
              ++ "How many customers per city?" ++ promptTail) :=
  ⟨by decide, build_prompt_contains "How many customers per city?" (by decide)⟩

/-- Claim C4, counterexample: on a failed LLM call generate_sql_with_gpt
hands its caller the plain value none; two failures with different
underlying messages produce the identical caller-visible return, so the
value returned to the caller is an ordinary sentinel that carries no
underlying message (the message goes only to the st.error display). -/
theorem generate_sql_error_counterexample :
    (generate_sql_with_gpt (fun _ _ => Except.error "boom") "q").2 = none
    ∧ (generate_sql_with_gpt (fun _ _ => Except.error "zap") "q").2 = none
    ∧ (generate_sql_with_gpt (fun _ _ => Except.error "boom") "q").2
        = (generate_sql_with_gpt (fun _ _ => Except.error "zap") "q").2 :=
  ⟨rfl, rfl, rfl⟩

/-- Claim C4 (amended): when the single LLM call raises, the function
displays an inline error message carrying the underlying text and
returns None to its caller; exactly one attempt — attempt 0 — is made
per action, the result depending on no later attempt. -/
theorem generate_sql_single_attempt (llm : Nat → String → Except String String)
    (q e : String) (h : llm 0 (build_prompt q) = Except.error e) :
    generate_sql_with_gpt llm q = (["Error calling Gemini API: " ++ e], none)
    ∧ ∀ llm2 : Nat → String → Except String String,
        llm2 0 (build_prompt q) = llm 0 (build_prompt q) →
        generate_sql_with_gpt llm2 q = generate_sql_with_gpt llm q := by
  constructor
  · unfold generate_sql_with_gpt
    rw [h]
  · intro llm2 h2
    unfold generate_sql_with_gpt
    rw [h2]

/-- Claim C4 (amended), witness at a concrete failing client. -/
theorem generate_sql_single_attempt_witness :
    ((fun (_ : Nat) (_ : String) => (Except.error "boom" : Except String String)) 0
        (build_prompt "q") = Except.error "boom")
    ∧ generate_sql_with_gpt (fun _ _ => Except.error "boom") "q"
        = (["Error calling Gemini API: boom"], none) :=
  ⟨rfl, (generate_sql_single_attempt (fun _ _ => Except.error "boom") "q" "boom" rfl).1⟩

/-- Claim C5: on a generate action whose stripped submission differs
from the recorded current_question, the stale generated_sql and
current_question are cleared before any generation occurs — the action
is exactly the store step applied after the clear step — and the final
generated_sql comes only from the new generation result, never from the
stale value. -/
theorem generate_clears_stale (llm : String → Option String) (s : SessionState)
    (raw : String) (hraw : raw ≠ "")
    (hdiff : s.current_question ≠ some (pyStripStr raw)) :
    (clearIfNewQuestion s (pyStripStr raw)).generated_sql = none
    ∧ (clearIfNewQuestion s (pyStripStr raw)).current_question = none
    ∧ generateAction llm s raw
        = storeGenerated (clearIfNewQuestion s (pyStripStr raw)) (pyStripStr raw)
            (llm (pyStripStr raw))
    ∧ (generateAction llm s raw).generated_sql
        = (match llm (pyStripStr raw) with
            | some sql => if sql = "" then none else some sql
            | none => none) := by
  have hc : clearIfNewQuestion s (pyStripStr raw)
      = { s with generated_sql := none, current_question := none } := by
    unfold clearIfNewQuestion
    rw [if_neg hdiff]
  refine ⟨by rw [hc], by rw [hc], ?_, ?_⟩
  · unfold generateAction
    rw [if_neg hraw]
  · unfold generateAction
    rw [if_neg hraw]
    rcases hl : llm (pyStripStr raw) with _ | sql
    · simp [storeGenerated, hc]
    · by_cases hsql : sql = ""
      · simp [storeGenerated, hsql, hc]
      · simp [storeGenerated, hsql]

/-- Claim C5, witness at a concrete changed question. -/
theorem generate_clears_stale_witness :
    (" new q " : String) ≠ ""
    ∧ (⟨true, some "old sql", some "old q", []⟩ : SessionState).current_question
        ≠ some (pyStripStr " new q ")
    ∧ (clearIfNewQuestion ⟨true, some "old sql", some "old q", []⟩
          (pyStripStr " new q ")).generated_sql = none :=
  ⟨by decide, by decide,
    (generate_clears_stale (fun _ => some "SELECT 2")
      ⟨true, some "old sql", some "old q", []⟩ " new q " (by decide) (by decide)).1⟩

/-- Claim C6: executing three queries in order from an empty history and
then displaying lists them most recent first; in general the display is
the last five appended entries in reverse order of appending. -/
theorem history_display_order
    (conn : Option (String → Except String (List (List String))))
    (s : SessionState) (q1 sql1 q2 sql2 q3 sql3 : String)
    (df1 df2 df3 : List (List String))
    (h0 : s.query_history = [])
    (h1 : run_query conn sql1 = some df1)
    (h2 : run_query conn sql2 = some df2)
    (h3 : run_query conn sql3 = some df3) :
    displayHistory (runQueryAction conn (runQueryAction conn
        (runQueryAction conn s q1 sql1) q2 sql2) q3 sql3).query_history
      = [⟨q3, sql3, df3.length⟩, ⟨q2, sql2, df2.length⟩, ⟨q1, sql1, df1.length⟩]
    ∧ ∀ hl : List Entry, displayHistory hl = hl.reverse.take 5 := by
  constructor
  · have hq : (runQueryAction conn (runQueryAction conn
        (runQueryAction conn s q1 sql1) q2 sql2) q3 sql3).query_history
        = [⟨q1, sql1, df1.length⟩, ⟨q2, sql2, df2.length⟩, ⟨q3, sql3, df3.length⟩] := by
      simp [runQueryAction, h1, h2, h3, h0]
    rw [hq]
    rfl
  · intro hl
    unfold displayHistory
    rw [List.reverse_drop, List.take_eq_take]
    simp only [List.length_reverse]
    omega

/-- Claim C6, witness at three concrete successful executions. -/
theorem history_display_order_witness :
    displayHistory (runQueryAction (some fun _ => Except.ok [["r"]])
        (runQueryAction (some fun _ => Except.ok [["r"]])
          (runQueryAction (some fun _ => Except.ok [["r"]])
            ⟨true, none, none, []⟩ "q1" "s1") "q2" "s2") "q3" "s3").query_history
      = [⟨"q3", "s3", 1⟩, ⟨"q2", "s2", 1⟩, ⟨"q1", "s1", 1⟩] :=
  (history_display_order (some fun _ => Except.ok [["r"]]) ⟨true, none, none, []⟩
    "q1" "s1" "q2" "s2" "q3" "s3" [["r"]] [["r"]] [["r"]] rfl rfl rfl rfl).1

/-- Claim C7: a history entry is appended exactly on run-query success —
on success exactly the new (question, sql, row count) entry is appended
and nothing else in the session state changes, and on failure the whole
session state is left untouched. -/
theorem run_appends_on_success
    (conn : Option (String → Except String (List (List String))))
    (s : SessionState) (q sql : String) :
    (∀ df, run_query conn sql = some df →
        runQueryAction conn s q sql
          = { s with query_history := s.query_history ++ [⟨q, sql, df.length⟩] })
    ∧ (run_query conn sql = none → runQueryAction conn s q sql = s) := by
  constructor
  · intro df hdf
    unfold runQueryAction
    rw [hdf]
  · intro hn
    unfold runQueryAction
    rw [hn]

/-- Claim C7, witness: one successful and one failing execution. -/
theorem run_appends_on_success_witness :
    run_query (some fun _ => Except.ok [["a"], ["b"]]) "SELECT 1" = some [["a"], ["b"]]
    ∧ runQueryAction (some fun _ => Except.ok [["a"], ["b"]])
        ⟨true, none, none, []⟩ "q" "SELECT 1"
        = { (⟨true, none, none, []⟩ : SessionState) with
              query_history := ([] : List Entry) ++ [⟨"q", "SELECT 1", 2⟩] }
    ∧ run_query none "SELECT 1" = none
    ∧ runQueryAction none ⟨true, none, none, []⟩ "q" "SELECT 1"
        = ⟨true, none, none, []⟩ :=
  ⟨rfl,
    (run_appends_on_success (some fun _ => Except.ok [["a"], ["b"]])
      ⟨true, none, none, []⟩ "q" "SELECT 1").1 [["a"], ["b"]] rfl,
    rfl,
    (run_appends_on_success none ⟨true, none, none, []⟩ "q" "SELECT 1").2 rfl⟩

/-- Claim C8, counterexample: with an empty password whose bcrypt check
against the stored hash succeeds (bcrypt accepts empty passwords, so the
stored hash can be the hash of the empty string), the code still denies
access, because the password is tested for non-emptiness before bcrypt
ever runs; so a password whose check succeeds does not always log in. -/
theorem login_empty_password_counterexample :
    (fun _ : String => (Except.ok true : Except String Bool)) "" = Except.ok true
    ∧ (login_screen (fun _ => Except.ok true)
        ⟨false, none, none, []⟩ "").logged_in = false :=
  ⟨rfl, rfl⟩

/-- Claim C8 (amended): on a login attempt with a non-empty password
whose bcrypt check succeeds, logged_in becomes true; on a login attempt
with any password whose check does not succeed, access is denied and a
logged_in that was false remains false. -/
theorem login_checkpw (checkpw : String → Except String Bool)
    (s : SessionState) (pw : String) :
    (pw ≠ "" → checkpw pw = Except.ok true →
        (login_screen checkpw s pw).logged_in = true)
    ∧ (checkpw pw ≠ Except.ok true → s.logged_in = false →
        (login_screen checkpw s pw).logged_in = false) := by
  constructor
  · intro hpw hok
    unfold login_screen
    rw [if_neg hpw, hok]
  · intro hne hs
    unfold login_screen
    by_cases hpw : pw = ""
    · rw [if_pos hpw]
      exact hs
    · rw [if_neg hpw]
      cases hc : checkpw pw with
      | error e => exact hs
      | ok b =>
        cases b with
        | false => exact hs
        | true => exact absurd hc hne

/-- Claim C8 (amended), witness mirroring the secret123 example of the
spec: the correct password logs in, a wrong one does not. -/
theorem login_checkpw_witness :
    ("secret123" : String) ≠ ""
    ∧ (fun p : String => (Except.ok (p == "secret123") : Except String Bool))
        "secret123" = Except.ok true
    ∧ (login_screen (fun p => Except.ok (p == "secret123"))
        ⟨false, none, none, []⟩ "secret123").logged_in = true
    ∧ (fun p : String => (Except.ok (p == "secret123") : Except String Bool))
        "wrong" ≠ Except.ok true
    ∧ (login_screen (fun p => Except.ok (p == "secret123"))
        ⟨false, none, none, []⟩ "wrong").logged_in = false :=
  ⟨by decide, by decide,
    (login_checkpw (fun p => Except.ok (p == "secret123"))
      ⟨false, none, none, []⟩ "secret123").1 (by decide) (by decide),
    by decide,
    (login_checkpw (fun p => Except.ok (p == "secret123"))
      ⟨false, none, none, []⟩ "wrong").2 (by decide) rfl⟩

/-- The configuration reader raises with its fixed message exactly when
one of the four required variables is unset. -/
theorem get_db_url_error_iff (env : String → Option String) :
    get_db_url env = Except.error "Missing environment variables!"
      ↔ (env "POSTGRES_USERNAME" = none ∨ env "POSTGRES_PASSWORD" = none
          ∨ env "POSTGRES_SERVER" = none ∨ env "POSTGRES_DATABASE" = none) := by
  unfold get_db_url
  rcases hu : env "POSTGRES_USERNAME" with _ | u <;>
    rcases hp : env "POSTGRES_PASSWORD" with _ | p <;>
      rcases hh : env "POSTGRES_SERVER" with _ | h <;>
        rcases hd : env "POSTGRES_DATABASE" with _ | d <;> simp

/-- Claim C9: get_db_url raises exactly when the database username,
password, server or database name is absent from the environment; when
all four are present it returns the PostgreSQL connection string
containing them, with the port defaulting to 5432 when no port is
configured. -/
theorem get_db_url_spec (env : String → Option String) :
    ((env "POSTGRES_USERNAME" = none ∨ env "POSTGRES_PASSWORD" = none
        ∨ env "POSTGRES_SERVER" = none ∨ env "POSTGRES_DATABASE" = none)
      ↔ get_db_url env = Except.error "Missing environment variables!")
    ∧ (∀ u p h d, env "POSTGRES_USERNAME" = some u →
        env "POSTGRES_PASSWORD" = some p → env "POSTGRES_SERVER" = some h →
        env "POSTGRES_DATABASE" = some d →
        get_db_url env
            = Except.ok ("postgresql://" ++ u ++ ":" ++ p ++ "@" ++ h ++ ":"
                ++ (env "POSTGRES_PORT").getD "5432" ++ "/" ++ d)
          ∧ (env "POSTGRES_PORT" = none →
              get_db_url env
                = Except.ok ("postgresql://" ++ u ++ ":" ++ p ++ "@" ++ h ++ ":"
                    ++ "5432" ++ "/" ++ d))) := by
  constructor
  · exact (get_db_url_error_iff env).symm
  · intro u p h d hu hp hh hd
    have hok : get_db_url env
        = Except.ok ("postgresql://" ++ u ++ ":" ++ p ++ "@" ++ h ++ ":"
            ++ (env "POSTGRES_PORT").getD "5432" ++ "/" ++ d) := by
      unfold get_db_url
      rw [hu, hp, hh, hd]
    refine ⟨hok, fun hport => ?_⟩
    rw [hok, hport]
    rfl

/-- Claim C9, witness: a fully set environment without a port yields the
defaulted connection string, and the empty environment raises. -/
theorem get_db_url_spec_witness :
    envFull "POSTGRES_USERNAME" = some "user1"
    ∧ envFull "POSTGRES_PORT" = none
    ∧ get_db_url envFull
        = Except.ok ("postgresql://" ++ "user1" ++ ":" ++ "pw" ++ "@" ++ "dbhost"
            ++ ":" ++ "5432" ++ "/" ++ "patients")
    ∧ get_db_url envEmpty = Except.error "Missing environment variables!" :=
  ⟨rfl, rfl,
    ((get_db_url_spec envFull).2 "user1" "pw" "dbhost" "patients"
      rfl rfl rfl rfl).2 rfl,
    ((get_db_url_spec envEmpty).1).mp (Or.inl rfl)⟩

/-- Claim C10: the question stored in the history entry on a successful
run is the raw text area content at run time (the user_question variable
of the rerun that handles the click), not the recorded current_question
that produced the generated SQL; when the two differ, the stored
question differs from the question that generated the executed SQL. -/
theorem run_records_textarea_question
    (conn : Option (String → Except String (List (List String))))
    (s : SessionState) (ta_question edited_sql cq : String)
    (df : List (List String))
    (hdf : run_query conn edited_sql = some df)
    (hcq : s.current_question = some cq) :
    ∃ entry : Entry,
      (runQueryAction conn s ta_question edited_sql).query_history
          = s.query_history ++ [entry]
      ∧ entry.question = ta_question
      ∧ (ta_question ≠ cq → entry.question ≠ cq) := by
  refine ⟨⟨ta_question, edited_sql, df.length⟩, ?_, rfl, fun hne => hne⟩
  unfold runQueryAction
  rw [hdf]

/-- Claim C10, witness: at run time the text area holds a different
question from the one recorded at generation time. -/
theorem run_records_textarea_question_witness :
    ∃ entry : Entry,
      (runQueryAction (some fun _ => Except.ok [])
          ⟨true, some "SELECT 1", some "old question", []⟩
          "new question" "SELECT 1").query_history
        = ([] : List Entry) ++ [entry]
      ∧ entry.question = "new question"
      ∧ ("new question" ≠ "old question" → entry.question ≠ "old question") :=
  run_records_textarea_question (some fun _ => Except.ok [])
    ⟨true, some "SELECT 1", some "old question", []⟩
    "new question" "SELECT 1" "old question" [] rfl rfl
